import Mathlib

/-!
Verification of the lazy entity-resolution layer of `instaloader/structures.py`:
the shortcode/mediaid identifier codec, the `Post`, `Profile`, `StoryItem` and
`Story` entity views, their two-tier field resolvers with memoized full-record
fetches, and their identity/equality/hash operations.

The Python source is embedded shallowly:
  * JSON records become the inductive `Val` / association-list `Dict` types;
  * machine-level base64 byte handling collapses to base-64 digit arithmetic
    (12 six-bit characters and the 9-byte big-endian integer carry the same
    72-bit value, so `int.from_bytes(b64decode(s), 'big')` is the base-64
    value of the character string);
  * stateful methods become explicit state-passing functions that also return
    the number of outbound transport calls they issued;
  * Python exceptions become `Except PyErr` results.
-/

/-! ## Identifier codec (`shortcode_to_mediaid` / `mediaid_to_shortcode`) -/

/-- Character of a six-bit digit in the URL-safe base64 alphabet used by
`b64encode(..., b'-_')`: `A`–`Z` ↦ 0–25, `a`–`z` ↦ 26–51, `0`–`9` ↦ 52–61,
`-` ↦ 62, `_` ↦ 63. -/
def b64chr (d : Nat) : Char :=
  if d < 26 then Char.ofNat (65 + d)
  else if d < 52 then Char.ofNat (97 + (d - 26))
  else if d < 62 then Char.ofNat (48 + (d - 52))
  else if d = 62 then '-'
  else '_'

/-- Six-bit value of a character of the URL-safe base64 alphabet; characters
outside the alphabet are mapped to the out-of-range marker 64 (`b64decode`
rejects them; see `shortcode_to_mediaid`). -/
def b64val (c : Char) : Nat :=
  if 65 ≤ c.toNat ∧ c.toNat ≤ 90 then c.toNat - 65
  else if 97 ≤ c.toNat ∧ c.toNat ≤ 122 then c.toNat - 97 + 26
  else if 48 ≤ c.toNat ∧ c.toNat ≤ 57 then c.toNat - 48 + 52
  else if c.toNat = 45 then 62
  else if c.toNat = 95 then 63
  else 64

/-- Membership in the URL-safe base64 alphabet. -/
def isB64Char (c : Char) : Bool := b64val c < 64

/-- Big-endian value of a list of base-64 digits. -/
def b64digitsVal (ds : List Nat) : Nat := ds.foldl (fun a d => a * 64 + d) 0

/-- The `k` low-order base-64 digits of `n`, big-endian
(the digit expansion of the 9-byte big-endian encoding of `n`). -/
def natToB64Digits : Nat → Nat → List Nat
  | 0, _ => []
  | k + 1, n => natToB64Digits k (n / 64) ++ [n % 64]

/-- Python `int.bit_length` on a non-negative integer. -/
def bit_length (n : Nat) : Nat := Nat.size n

/-- `shortcode_to_mediaid`: fails (`InvalidArgumentException`) on codes longer
than 11 characters; left-pads with the padding character `'A'` to 12
characters, base64url-decodes to 9 bytes and reads them as a big-endian
integer. Characters outside the alphabet make `b64decode` fail, modelled as
`none`. -/
def shortcode_to_mediaid (code : List Char) : Option Nat :=
  if 11 < code.length then none
  else if (List.replicate (12 - code.length) 'A' ++ code).all isB64Char then
    some (b64digitsVal ((List.replicate (12 - code.length) 'A' ++ code).map b64val))
  else none

/-- The 12-character base64url encoding of `mediaid.to_bytes(9, 'big')`. -/
def b64encode12 (m : Nat) : List Char := (natToB64Digits 12 m).map b64chr

/-- The padding-stripping pipeline of `mediaid_to_shortcode`:
`.replace('A', ' ').lstrip().replace(' ', 'A')` (where `lstrip()` removes
leading whitespace characters). -/
def stripLeadingPadding (s : List Char) : List Char :=
  (((s.map fun c => if c = 'A' then ' ' else c).dropWhile
      Char.isWhitespace).map fun c => if c = ' ' then 'A' else c)

/-- `mediaid_to_shortcode`: fails (`InvalidArgumentException`) when the integer
needs more than 64 bits; otherwise encodes 9 big-endian bytes as base64url and
elides the leading padding characters. -/
def mediaid_to_shortcode (m : Nat) : Option (List Char) :=
  if 64 < bit_length m then none
  else some (stripLeadingPadding (b64encode12 m))

/-- Modelled from the spec's words for the refinement comparison of the
padding-stripping step: a "naive left-trim of the padding character" from the
12-character encoding, i.e. dropping the maximal leading run of `'A'`. -/
def naiveLeftTrimA (s : List Char) : List Char := s.dropWhile (fun c => c == 'A')

/-! ## JSON records -/

/-- A JSON-like value as returned by the remote service. -/
inductive Val where
  | str : String → Val
  | num : Int → Val
  | bool : Bool → Val
  | null : Val
  | arr : List Val → Val
  | obj : List (String × Val) → Val

/-- A JSON mapping (Python `dict`), as an association list keyed by strings. -/
abbrev Dict := List (String × Val)

/-- Python exceptions raised by the code under consideration.  The repository's
`exceptions` module is not part of the source tree; per the spec (§7), the
taxonomy members `invalid-argument`, `login-required`, `profile-not-found`,
`profile-has-no-pics` and `query-not-found` together with connection failures
are library exception classes (`InstaloaderException` subclasses), while
`keyError`, `typeError`, `valueError`, `attributeError`, `assertionError`,
`indexError` and `overflowError` are Python built-ins. -/
inductive PyErr where
  | keyError
  | typeError
  | valueError
  | attributeError
  | assertionError
  | indexError
  | overflowError
  | invalidArgument
  | loginRequired
  | profileNotExists
  | profileHasNoPics
  | queryNotFound
  | connectionError
  | unresolvedOwnerLookup
  deriving DecidableEq

/-- First value bound to key `k`, if any (`dict` lookup). -/
def dget (d : Dict) (k : String) : Option Val :=
  match d with
  | [] => none
  | (k', v) :: rest => if k' = k then some v else dget rest k

/-- Python `k in d` for a dict. -/
def dhas (d : Dict) (k : String) : Bool := (dget d k).isSome

/-- Python truthiness of a JSON value (`if value:`): `None`, `False`, `0`,
`""`, `[]` and `{}` are falsy. -/
def Val.truthy : Val → Bool
  | .str s => !(s = "")
  | .num n => !(n = 0)
  | .bool b => b
  | .null => false
  | .arr l => !l.isEmpty
  | .obj d => !d.isEmpty

/-- Python subscripting `v[k]` with a string key: `KeyError` when the key is
absent from a dict, `TypeError` when `v` is not a dict (string/list/scalar
subscripts with a string key raise `TypeError`). -/
def Val.getKey (v : Val) (k : String) : Except PyErr Val :=
  match v with
  | .obj d =>
    match dget d k with
    | some w => .ok w
    | none => .error .keyError
  | _ => .error .typeError

/-- Sequential subscripting `v[k₁][k₂]…`, as walked by `Post._field` and
`Profile._metadata`. -/
def walkKeys (v : Val) (keys : List String) : Except PyErr Val :=
  keys.foldlM Val.getKey v

/-- Python `value == n` against an int literal: numbers compare numerically,
booleans count as 0/1, every other value compares unequal. -/
def Val.eqInt : Val → Int → Bool
  | .num m, n => m = n
  | .bool b, n => (if b then (1 : Int) else 0) = n
  | _, _ => false

/-- Python `len(value)`: length of a list or string, number of keys of a dict,
`TypeError` otherwise. -/
def Val.pyLen : Val → Except PyErr Nat
  | .arr l => .ok l.length
  | .str s => .ok s.length
  | .obj d => .ok d.length
  | _ => .error .typeError

/-- Decimal digit string to number, for `int(str)`. -/
def decDigitsVal : List Char → Option Nat
  | [] => none
  | ds =>
    if ds.all Char.isDigit then
      some (ds.foldl (fun a c => a * 10 + (c.toNat - 48)) 0)
    else none

/-- Python `int(value)`: ints pass through, booleans become 0/1, decimal
strings (optionally signed) are parsed (`ValueError` on failure), other types
raise `TypeError`. -/
def Val.toIntE : Val → Except PyErr Int
  | .num n => .ok n
  | .bool b => .ok (if b then 1 else 0)
  | .str s =>
    match s.data with
    | '-' :: rest =>
      match decDigitsVal rest with
      | some n => .ok (-(n : Int))
      | none => .error .valueError
    | ds =>
      match decDigitsVal ds with
      | some n => .ok (n : Int)
      | none => .error .valueError
  | _ => .error .typeError

/-- Python `==` between scalar JSON values (numbers and booleans compare
numerically).  Container equality is not needed by the shortcode- and
id-based comparisons modelled here and is conservatively `false`. -/
def pyEqVal : Val → Val → Bool
  | .str a, .str b => a = b
  | .num a, .num b => a = b
  | .bool a, .bool b => a = b
  | .num a, .bool b => a = (if b then (1 : Int) else 0)
  | .bool a, .num b => (if a then (1 : Int) else 0) = b
  | .null, .null => true
  | _, _ => false

/-- Python `'k' in v`: key test on dicts, membership on lists, substring test
on strings, `TypeError` otherwise. -/
def strContainsAux (p : List Char) : List Char → Bool
  | [] => p.isEmpty
  | c :: t => p.isPrefixOf (c :: t) || strContainsAux p t

/-- Python `'k' in v` (see `strContainsAux` for the substring case). -/
def pyContains (v : Val) (k : String) : Except PyErr Bool :=
  match v with
  | .obj d => .ok (dhas d k)
  | .arr l => .ok (l.any fun x => pyEqVal x (Val.str k))
  | .str s => .ok (strContainsAux k.data s.data)
  | _ => .error .typeError

/-- Python `str.lower()`; the usernames and short codes in scope are ASCII, so
ASCII lowercasing models it. -/
def pyLower (s : String) : String := String.mk (s.data.map Char.toLower)

/-- Deterministic stand-in for CPython's string hash; only the property that
equal strings hash equally is relied upon by the confirmed statements. -/
def pyHashStr (s : String) : Nat :=
  s.data.foldl (fun a c => a * 31 + c.toNat) 7

/-- Stand-in for CPython's hash of the value held by `Story._unique_id`:
`None` before the composite identity was computed, a string afterwards.
CPython hashes `None` and strings by unrelated schemes; the stand-in keeps
them apart, which only matters where the code hashes two different values. -/
def pyHashOptStr : Option String → Nat
  | none => 0
  | some s => pyHashStr s + 1

/-! ## `Post` -/

/-- Transport collaborator as seen by one `Post` instance: the parsed JSON of
the post's page (`get_json("p/{shortcode}/", {'__a': 1})`, deterministic for
the instance's fixed shortcode) and the record sequences the pagination
consumer (`graphql_node_list`) produces for the comment and like
connections. -/
structure PostCtx where
  full_response : Dict
  paginated_comments : List Val
  paginated_likes : List Val

/-- Mutable state of a `Post` instance: the partial record `self._node` and
the memo cell `self._full_metadata_dict` (initially `None`). -/
structure Post where
  node : Dict
  full_metadata_dict : Option Val

/-- The construction-time contract of `Post.__init__`: the six `assert`
statements on the seed record. -/
def post_node_ok (node : Dict) : Bool :=
  (dhas node "shortcode" || dhas node "code") &&
  dhas node "id" &&
  dhas node "owner" &&
  (dhas node "date" || dhas node "taken_at_timestamp") &&
  (dhas node "display_url" || dhas node "display_src") &&
  dhas node "is_video"

/-- `Post.__init__` (without an owner profile): `AssertionError` at
construction when a mandatory field is missing, otherwise a state wrapping the
untouched record with an empty memo cell. -/
def Post.init (node : Dict) : Except PyErr Post :=
  if post_node_ok node then .ok ⟨node, none⟩ else .error .assertionError

/-- Extraction step of `Post._full_metadata`:
`pic_json["graphql"]["shortcode_media"]` when the response has a `graphql`
key, else `pic_json["media"]`. -/
def extract_full (pic_json : Dict) : Except PyErr Val :=
  if dhas pic_json "graphql" then
    walkKeys (Val.obj pic_json) ["graphql", "shortcode_media"]
  else (Val.obj pic_json).getKey "media"

/-- Python truthiness of the memo cell (`if not self._full_metadata_dict`):
`None` and falsy values (such as an empty dict) both count as unset. -/
def cellTruthy : Option Val → Bool
  | none => false
  | some v => v.truthy

/-- The `Post._full_metadata` property: fetch and memoize the full record when
the memo cell is falsy, else reuse it.  Returns the result, the new state and
the number of outbound `get_json` calls issued. -/
def Post.full_metadata (ctx : PostCtx) (p : Post) :
    Except PyErr Val × Post × Nat :=
  if cellTruthy p.full_metadata_dict then
    match p.full_metadata_dict with
    | some v => (.ok v, p, 0)
    | none => (.error .keyError, p, 0)
  else
    match extract_full ctx.full_response with
    | .ok v => (.ok v, { p with full_metadata_dict := some v }, 1)
    | .error e => (.error e, p, 1)

/-- `Post._field`: walk the partial record; on `KeyError` (and only then)
fall back to the full metadata and re-walk there. -/
def Post.field (ctx : PostCtx) (p : Post) (keys : List String) :
    Except PyErr Val × Post × Nat :=
  match walkKeys (Val.obj p.node) keys with
  | .ok v => (.ok v, p, 0)
  | .error .keyError =>
    match Post.full_metadata ctx p with
    | (.ok full, p', n) => (walkKeys full keys, p', n)
    | (.error e, p', n) => (.error e, p', n)
  | .error e => (.error e, p, 0)

/-- A sequence of resolver calls on one instance, accumulating the outbound
call count. -/
def Post.run_fields (ctx : PostCtx) : Post → List (List String) → Post × Nat
  | p, [] => (p, 0)
  | p, ks :: rest =>
    ((Post.run_fields ctx (Post.field ctx p ks).2.1 rest).1,
      (Post.field ctx p ks).2.2 +
        (Post.run_fields ctx (Post.field ctx p ks).2.1 rest).2)

/-- The `Post.shortcode` property:
`self._node['shortcode'] if 'shortcode' in self._node else self._node['code']`. -/
def Post.shortcode (p : Post) : Except PyErr Val :=
  if dhas p.node "shortcode" then (Val.obj p.node).getKey "shortcode"
  else (Val.obj p.node).getKey "code"

/-- `Post.__eq__`: compares the two shortcodes. -/
def Post.eq (a b : Post) : Except PyErr Bool := do
  let sa ← a.shortcode
  let sb ← b.shortcode
  pure (pyEqVal sa sb)

/-- Stand-in hash of a scalar value, for `hash(self.shortcode)`; Python lists
and dicts are unhashable. -/
def pyHashVal : Val → Except PyErr Nat
  | .str s => .ok (pyHashStr s)
  | .num n => .ok n.natAbs
  | .bool b => .ok (if b then 1 else 0)
  | .null => .ok 2
  | .arr _ => .error .typeError
  | .obj _ => .error .typeError

/-- `Post.__hash__`: `hash(self.shortcode)`. -/
def Post.hash (p : Post) : Except PyErr Nat := do
  let sc ← p.shortcode
  pyHashVal sc

/-- The projection `(comment['node'] for comment in edges)`; the laziness of
the Python generator is collapsed into a whole-list result. -/
def project_edge_nodes (edges : List Val) : Except PyErr (List Val) :=
  edges.mapM (fun e => e.getKey "node")

/-- `Post.get_comments`, fully consumed: short-circuit on a zero declared
count, then on a local edge list matching the declared count, else one
pagination-consumer call.  Mirrors the source's evaluation order, including
the second evaluation of `self.comments` in the length comparison. -/
def Post.get_comments (ctx : PostCtx) (p : Post) :
    Except PyErr (List Val) × Post × Nat :=
  match Post.field ctx p ["edge_media_to_comment", "count"] with
  | (.error e, p1, n1) => (.error e, p1, n1)
  | (.ok cnt, p1, n1) =>
    if cnt.eqInt 0 then (.ok [], p1, n1)
    else
      match Post.field ctx p1 ["edge_media_to_comment", "edges"] with
      | (.error e, p2, n2) => (.error e, p2, n1 + n2)
      | (.ok edgesVal, p2, n2) =>
        match Post.field ctx p2 ["edge_media_to_comment", "count"] with
        | (.error e, p3, n3) => (.error e, p3, n1 + n2 + n3)
        | (.ok cnt2, p3, n3) =>
          match edgesVal.pyLen with
          | .error e => (.error e, p3, n1 + n2 + n3)
          | .ok len =>
            if cnt2.eqInt len then
              match edgesVal with
              | .arr l => (project_edge_nodes l, p3, n1 + n2 + n3)
              | _ => (.error .typeError, p3, n1 + n2 + n3)
            else
              (.ok ctx.paginated_comments, p3, n1 + n2 + n3 + 1)

/-- `Post.get_likes`, fully consumed; same shape as `Post.get_comments` over
the `edge_media_preview_like` connection. -/
def Post.get_likes (ctx : PostCtx) (p : Post) :
    Except PyErr (List Val) × Post × Nat :=
  match Post.field ctx p ["edge_media_preview_like", "count"] with
  | (.error e, p1, n1) => (.error e, p1, n1)
  | (.ok cnt, p1, n1) =>
    if cnt.eqInt 0 then (.ok [], p1, n1)
    else
      match Post.field ctx p1 ["edge_media_preview_like", "edges"] with
      | (.error e, p2, n2) => (.error e, p2, n1 + n2)
      | (.ok edgesVal, p2, n2) =>
        match Post.field ctx p2 ["edge_media_preview_like", "count"] with
        | (.error e, p3, n3) => (.error e, p3, n1 + n2 + n3)
        | (.ok cnt2, p3, n3) =>
          match edgesVal.pyLen with
          | .error e => (.error e, p3, n1 + n2 + n3)
          | .ok len =>
            if cnt2.eqInt len then
              match edgesVal with
              | .arr l => (project_edge_nodes l, p3, n1 + n2 + n3)
              | _ => (.error .typeError, p3, n1 + n2 + n3)
            else
              (.ok ctx.paginated_likes, p3, n1 + n2 + n3 + 1)

/-- `Post.from_shortcode`: constructs `Post(context, {'shortcode': shortcode})`
and then performs the eager full-record fetch, assigning its result to
`self._node`.  Under this source's construction contract the single-key seed
record trips `Post.__init__`'s `assert 'id' in node` (and the following
asserts), so the factory fails with `AssertionError` before any fetch; the
fetch-and-assign continuation is modelled for completeness (a non-mapping
full record assigned to `_node` would make every later `_node` subscript a
`TypeError`, folded here into the factory result, but it sits behind the
always-failing constructor). -/
def Post.from_shortcode (ctx : PostCtx) (shortcode : String) :
    Except PyErr Post × Nat :=
  match Post.init [("shortcode", Val.str shortcode)] with
  | .error e => (.error e, 0)
  | .ok p =>
    match Post.full_metadata ctx p with
    | (.ok (Val.obj d), p', n) => (.ok { p' with node := d }, n)
    | (.ok _, _, n) => (.error .typeError, n)
    | (.error e, _, n) => (.error e, n)

/-! ## `Profile` -/

/-- Transport collaborator as seen by one `Profile` instance: the outcome of
`get_json('{username}/', {'__a': 1})`, which the instance fetches through
`_obtain_metadata` (deterministic for the instance's fixed username); a 404
surfaces as `queryNotFound`. -/
structure ProfileCtx where
  user_json : Except PyErr Dict

/-- Mutable state of a `Profile` instance: `self._node`, which
`_obtain_metadata` replaces wholesale with the fetched user record. -/
structure Profile where
  node : Val

/-- `Profile.__init__`: `assert 'username' in node`. -/
def Profile.init (node : Val) : Except PyErr Profile := do
  let b ← pyContains node "username"
  if b then pure ⟨node⟩ else throw .assertionError

/-- Extraction step of `Profile._obtain_metadata`:
`metadata['graphql']['user'] if 'graphql' in metadata else metadata['user']`. -/
def extract_user (metadata : Dict) : Except PyErr Val :=
  if dhas metadata "graphql" then
    walkKeys (Val.obj metadata) ["graphql", "user"]
  else (Val.obj metadata).getKey "user"

/-- `Profile._obtain_metadata`: one outbound fetch replacing `self._node`;
a `QueryReturnedNotFoundException` is converted to
`ProfileNotExistsException`.  (The URL is formatted from `self.username`,
which the constructor's assertion keeps resolvable; the formatting itself has
no observable effect here.) -/
def Profile.obtain_metadata (ctx : ProfileCtx) :
    Except PyErr Profile × Nat :=
  match ctx.user_json with
  | .error .queryNotFound => (.error .profileNotExists, 1)
  | .error e => (.error e, 1)
  | .ok j =>
    match extract_user j with
    | .ok u => (.ok ⟨u⟩, 1)
    | .error e => (.error e, 1)

/-- `Profile._metadata`: walk `self._node`; on `KeyError` (and only then)
re-fetch the record via `_obtain_metadata` and walk again.  Note that there is
no memo flag: every missing-key walk triggers a fetch. -/
def Profile.metadata (ctx : ProfileCtx) (pr : Profile) (keys : List String) :
    Except PyErr Val × Profile × Nat :=
  match walkKeys pr.node keys with
  | .ok v => (.ok v, pr, 0)
  | .error .keyError =>
    match Profile.obtain_metadata ctx with
    | (.ok pr', n) => (walkKeys pr'.node keys, pr', n)
    | (.error e, n) => (.error e, pr, n)
  | .error e => (.error e, pr, 0)

/-- A sequence of resolver calls on one `Profile` instance, accumulating the
outbound call count. -/
def Profile.run_metadata (ctx : ProfileCtx) :
    Profile → List (List String) → Profile × Nat
  | pr, [] => (pr, 0)
  | pr, ks :: rest =>
    ((Profile.run_metadata ctx (Profile.metadata ctx pr ks).2.1 rest).1,
      (Profile.metadata ctx pr ks).2.2 +
        (Profile.run_metadata ctx (Profile.metadata ctx pr ks).2.1 rest).2)

/-- The `Profile.username` property: `self._metadata('username').lower()`
(`AttributeError` when the resolved value is not a string). -/
def Profile.username (ctx : ProfileCtx) (pr : Profile) :
    Except PyErr String × Profile × Nat :=
  match Profile.metadata ctx pr ["username"] with
  | (.ok (.str s), pr', n) => (.ok (pyLower s), pr', n)
  | (.ok _, pr', n) => (.error .attributeError, pr', n)
  | (.error e, pr', n) => (.error e, pr', n)

/-- The `Profile.userid` property: `int(self._metadata('id'))`. -/
def Profile.userid (ctx : ProfileCtx) (pr : Profile) :
    Except PyErr Int × Profile × Nat :=
  match Profile.metadata ctx pr ["id"] with
  | (.ok v, pr', n) => (v.toIntE, pr', n)
  | (.error e, pr', n) => (.error e, pr', n)

/-! ## `Profile.get_profile_pic_url` -/

/-- Transport collaborator for `get_profile_pic_url`: the profile's own
metadata endpoint (for `self.userid` and the fallback field) plus the outcome
of the anonymous-session `get_json('api/v1/users/{userid}/info/')` call. -/
structure PicCtx where
  profile_ctx : ProfileCtx
  hi_res_json : Except PyErr Val

/-- Whether `except (InstaloaderException, KeyError)` catches an exception:
library exceptions and `KeyError` are caught, other built-ins are not. -/
def caughtByPicHandler : PyErr → Bool
  | .keyError => true
  | .invalidArgument => true
  | .loginRequired => true
  | .profileNotExists => true
  | .profileHasNoPics => true
  | .queryNotFound => true
  | .connectionError => true
  | .typeError => false
  | .valueError => false
  | .attributeError => false
  | .assertionError => false
  | .indexError => false
  | .overflowError => false
  | .unresolvedOwnerLookup => false

/-- The high-resolution attempt inside the `try` block, after `self.userid`
was resolved: the anonymous `get_json` call followed by
`data["user"]["hd_profile_pic_url_info"]["url"]`. -/
def hi_res_lookup (ctx : PicCtx) : Except PyErr Val :=
  match ctx.hi_res_json with
  | .ok data => walkKeys data ["user", "hd_profile_pic_url_info", "url"]
  | .error e => .error e

/-- The `except` branch of `get_profile_pic_url`: log the failure
(`self._context.error(...)`, reported by the final flag) and return
`self._metadata("profile_pic_url_hd")`, whose own failures propagate. -/
def pic_fallback (ctx : PicCtx) (pr : Profile) (n : Nat) :
    Except PyErr Val × Profile × Nat × Bool :=
  match Profile.metadata ctx.profile_ctx pr ["profile_pic_url_hd"] with
  | (r, pr', m) => (r, pr', n + m, true)

/-- `Profile.get_profile_pic_url`: try the high-resolution anonymous endpoint
(this includes resolving `self.userid`, which is inside the `try` block);
on a caught failure, log and fall back to the standard-resolution field.
Returns the result, the state, the outbound call count and whether a failure
was logged. -/
def Profile.get_profile_pic_url (ctx : PicCtx) (pr : Profile) :
    Except PyErr Val × Profile × Nat × Bool :=
  match Profile.userid ctx.profile_ctx pr with
  | (.error e, pr1, n1) =>
    if caughtByPicHandler e then pic_fallback ctx pr1 n1
    else (.error e, pr1, n1, false)
  | (.ok _, pr1, n1) =>
    match hi_res_lookup ctx with
    | .ok v => (.ok v, pr1, n1 + 1, false)
    | .error e =>
      if caughtByPicHandler e then pic_fallback ctx pr1 (n1 + 1)
      else (.error e, pr1, n1 + 1, false)

/-! ## `Profile.from_id` -/

/-- Transport collaborator for `Profile.from_id`: the session's login state,
the parsed result of the single-item `graphql_query`, and the post-page JSON
that `Post.from_mediaid`'s eager full-metadata fetch receives. -/
structure FromIdCtx where
  is_logged_in : Bool
  query_json : Dict
  post_page_json : Dict

/-- Python list indexing `v[i]` (only reached on lists here; `edges[0]` on a
non-list raises `TypeError`, on a short list `IndexError`). -/
def pyIndex (v : Val) (i : Nat) : Except PyErr Val :=
  match v with
  | .arr l =>
    match l.get? i with
    | some x => .ok x
    | none => .error .indexError
  | _ => .error .typeError

/-- `mediaid_to_shortcode` as called on a Python `int`: negative values make
`to_bytes` raise `OverflowError`; values over 64 bits raise
`InvalidArgumentException`. -/
def mediaid_to_shortcodeE (m : Int) : Except PyErr (List Char) :=
  if m < 0 then .error .overflowError
  else
    match mediaid_to_shortcode m.toNat with
    | some s => .ok s
    | none => .error .invalidArgument

/-- `Post.owner_username` evaluated on a `Post` created by `from_shortcode`:
there `self._node` is the already-fetched full metadata, so both branches of
`owner_profile` read the same `owner` structure; if it carries a username the
owner profile is wrapped directly and its `username` property lowercases the
field (`AttributeError` on a non-string).  The remaining fallback is
`Profile.from_id(context, owner_struct['id'])`, a further network resolution
chain outside the scope of the settled claims, marked by a distinguished
error. -/
def owner_username_of_full (full : Val) : Except PyErr String := do
  let ownerRef ← full.getKey "owner"
  let hasU ← pyContains ownerRef "username"
  let ownerStruct ← if hasU then pure ownerRef else full.getKey "owner"
  let hasU2 ← pyContains ownerStruct "username"
  if hasU2 then
    match (← ownerStruct.getKey "username") with
    | .str s => pure (pyLower s)
    | _ => throw .attributeError
  else
    throw .unresolvedOwnerLookup

/-- `Profile.from_id`: login gate, single-item timeline query, the three
failure conditions, and username resolution through the most recent post —
`Post.from_mediaid(context, int(edges[0]['node']['id'])).owner_username`,
which converts the id and delegates to `Post.from_shortcode` (whose seed
record trips `Post.__init__`'s asserts, see there).  Returns the node of the
constructed `Profile`. -/
def Profile.from_id (ctx : FromIdCtx) (profile_id : Int) :
    Except PyErr Dict := do
  if ctx.is_logged_in = false then
    throw .loginRequired
  let data0 ← walkKeys (Val.obj ctx.query_json) ["data", "user"]
  let data ←
    if data0.truthy then data0.getKey "edge_owner_to_timeline_media"
    else throw .profileNotExists
  let edges ← data.getKey "edges"
  if edges.truthy = false then
    let cnt ← data.getKey "count"
    if cnt.eqInt 0 then throw .profileHasNoPics
    else throw .loginRequired
  else
    let e0 ← pyIndex edges 0
    let node0 ← e0.getKey "node"
    let idv ← node0.getKey "id"
    let mid ← idv.toIntE
    let sc ← mediaid_to_shortcodeE mid
    let post ← (Post.from_shortcode ⟨ctx.post_page_json, [], []⟩
      (String.mk sc)).1
    let uname ← owner_username_of_full (Val.obj post.node)
    pure [("username", Val.str (pyLower uname)), ("id", Val.num profile_id)]

/-! ## `StoryItem` and `Story` -/

/-- Mutable state of a `StoryItem`: just the wrapped record
(`__init__` stores it without any validation). -/
structure StoryItem where
  node : Dict

/-- `StoryItem.__init__` (without an owner profile): no structural checks. -/
def StoryItem.init (node : Dict) : StoryItem := ⟨node⟩

/-- The `StoryItem.mediaid` property: `int(self._node['id'])`. -/
def StoryItem.mediaid (si : StoryItem) : Except PyErr Int := do
  let v ← (Val.obj si.node).getKey "id"
  v.toIntE

/-- The `StoryItem.date_local` property:
`datetime.fromtimestamp(self._node['taken_at_timestamp'])`; the timestamp is
reported in epoch seconds (`TypeError` on a non-numeric value), the time-zone
rendering being outside the model. -/
def StoryItem.date_local (si : StoryItem) : Except PyErr Int := do
  match (← (Val.obj si.node).getKey "taken_at_timestamp") with
  | .num n => pure n
  | .bool b => pure (if b then 1 else 0)
  | _ => throw .typeError

/-- Mutable state of a `Story`: the wrapped record and the composite-identity
memo cell `self._unique_id` (initially `None`). -/
structure Story where
  node : Dict
  unique_id_cell : Option String

/-- `Story.__init__`. -/
def Story.init (node : Dict) : Story := ⟨node, none⟩

/-- The `Story.owner_profile` property: `Profile(context, node['user'])`,
whose constructor asserts the presence of a username. -/
def Story.owner_profile (st : Story) : Except PyErr Profile := do
  let u ← (Val.obj st.node).getKey "user"
  Profile.init u

/-- `[item.mediaid for item in self.get_items()]`: each yielded `StoryItem`
is built with `self.owner_profile` (re-evaluated per item, asserting the
username), then `int(item['id'])` is taken. -/
def Story.item_mediaids (st : Story) : Except PyErr (List Int) := do
  match (← (Val.obj st.node).getKey "items") with
  | .arr l =>
    l.mapM fun it => do
      let _ ← Story.owner_profile st
      let v ← it.getKey "id"
      v.toIntE
  | _ => throw .typeError

/-- Python falsiness of the memo cell `self._unique_id`
(`if not self._unique_id`): `None` or the empty string. -/
def uniqueIdCellUnset : Option String → Bool
  | none => true
  | some u => u = ""

/-- The `Story.unique_id` property: when the memo cell is falsy, collect the
item mediaids, sort ascending (`list.sort()`), join the decimal texts of the
owner id and the sorted ids with no separator and memoize; else reuse the
cell.  `self.owner_id` resolves `Profile(context, node['user']).userid`
through the profile resolver, which can fetch. -/
def Story.unique_id (ctx : ProfileCtx) (st : Story) :
    Except PyErr String × Story × Nat :=
  if uniqueIdCellUnset st.unique_id_cell then
    match Story.item_mediaids st with
    | .error e => (.error e, st, 0)
    | .ok ids =>
      let sorted := List.insertionSort (· ≤ ·) ids
      match Story.owner_profile st with
      | .error e => (.error e, st, 0)
      | .ok pr =>
        match Profile.userid ctx pr with
        | (.ok oid, _, n) =>
          let u := String.join (toString oid :: sorted.map toString)
          (.ok u, { st with unique_id_cell := some u }, n)
        | (.error e, _, n) => (.error e, st, n)
  else
    match st.unique_id_cell with
    | some u => (.ok u, st, 0)
    | none => (.error .keyError, st, 0)

/-- `Story.__eq__`: compares the `unique_id` properties, forcing (and
memoizing) both sides. -/
def Story.eq (ctx : ProfileCtx) (a b : Story) :
    Except PyErr Bool × Story × Story :=
  match Story.unique_id ctx a with
  | (.error e, a', _) => (.error e, a', b)
  | (.ok ua, a', _) =>
    match Story.unique_id ctx b with
    | (.error e, b', _) => (.error e, a', b')
    | (.ok ub, b', _) => (.ok (ua = ub), a', b')

/-- `Story.__hash__`: `hash(self._unique_id)` — the raw memo cell, not the
`unique_id` property. -/
def Story.hash (st : Story) : Nat := pyHashOptStr st.unique_id_cell

/-! ## Codec lemmas -/

theorem b64val_b64chr {d : Nat} (h : d < 64) : b64val (b64chr d) = d := by
  have htab : ∀ x : Fin 64, b64val (b64chr x.val) = x.val := by decide
  exact htab ⟨d, h⟩

theorem b64chr_b64val {c : Char} (h : isB64Char c = true) :
    b64chr (b64val c) = c := by
  have hofnat := Char.ofNat_toNat c
  unfold isB64Char b64val at *
  split_ifs at h ⊢ with h1 h2 h3 h4 h5
  · unfold b64chr
    rw [if_pos (by omega)]
    rw [show 65 + (c.toNat - 65) = c.toNat by omega]
    exact hofnat
  · unfold b64chr
    rw [if_neg (by omega), if_pos (by omega)]
    rw [show 97 + (c.toNat - 97 + 26 - 26) = c.toNat by omega]
    exact hofnat
  · unfold b64chr
    rw [if_neg (by omega), if_neg (by omega), if_pos (by omega)]
    rw [show 48 + (c.toNat - 48 + 52 - 52) = c.toNat by omega]
    exact hofnat
  · show b64chr 62 = c
    rw [← hofnat, h4]
    decide
  · show b64chr 63 = c
    rw [← hofnat, h5]
    decide
  · simp at h

theorem isB64Char_not_whitespace {c : Char} (h : isB64Char c = true) :
    c.isWhitespace = false := by
  by_contra hw
  rw [Bool.not_eq_false] at hw
  simp only [Char.isWhitespace, Bool.or_eq_true, decide_eq_true_eq] at hw
  rcases hw with ((h1 | h2) | h3) | h4
  · subst h1; exact absurd h (by decide)
  · subst h2; exact absurd h (by decide)
  · subst h3; exact absurd h (by decide)
  · subst h4; exact absurd h (by decide)

theorem b64val_lt_of_isB64Char {c : Char} (h : isB64Char c = true) :
    b64val c < 64 := by
  simp only [isB64Char, decide_eq_true_eq] at h
  exact h

theorem b64digitsVal_append (ds : List Nat) (d : Nat) :
    b64digitsVal (ds ++ [d]) = b64digitsVal ds * 64 + d := by
  unfold b64digitsVal
  rw [List.foldl_append]
  rfl

theorem b64digitsVal_cons_zero (l : List Nat) :
    b64digitsVal (0 :: l) = b64digitsVal l := by
  unfold b64digitsVal
  simp

theorem b64digitsVal_replicate_zero (p : Nat) (ds : List Nat) :
    b64digitsVal (List.replicate p 0 ++ ds) = b64digitsVal ds := by
  induction p with
  | zero => rfl
  | succ n ih =>
    rw [List.replicate_succ, List.cons_append, b64digitsVal_cons_zero, ih]

theorem natToB64Digits_zero (k : Nat) :
    natToB64Digits k 0 = List.replicate k 0 := by
  induction k with
  | zero => rfl
  | succ n ih =>
    show natToB64Digits n (0 / 64) ++ [0 % 64] = _
    rw [Nat.zero_div, ih, List.replicate_succ']

theorem natToB64Digits_b64digitsVal (ds : List Nat) :
    ∀ k, ds.length ≤ k → (∀ d ∈ ds, d < 64) →
      natToB64Digits k (b64digitsVal ds) =
        List.replicate (k - ds.length) 0 ++ ds := by
  induction ds using List.reverseRecOn with
  | nil => intro k _ _; simpa using natToB64Digits_zero k
  | append_singleton ds d ih =>
    intro k hlen hlt
    have hd : d < 64 := hlt d (by simp)
    have hds : ∀ x ∈ ds, x < 64 := fun x hx => hlt x (by simp [hx])
    cases k with
    | zero => simp at hlen
    | succ k' =>
      have hlen' : ds.length ≤ k' := by
        simp only [List.length_append, List.length_singleton] at hlen
        omega
      rw [b64digitsVal_append]
      show natToB64Digits k' ((b64digitsVal ds * 64 + d) / 64) ++
          [(b64digitsVal ds * 64 + d) % 64] = _
      have hdiv : (b64digitsVal ds * 64 + d) / 64 = b64digitsVal ds := by omega
      have hmod : (b64digitsVal ds * 64 + d) % 64 = d := by omega
      rw [hdiv, hmod, ih k' hlen' hds]
      rw [show (k' + 1) - (ds ++ [d]).length = k' - ds.length by
        simp only [List.length_append, List.length_singleton]; omega]
      simp [List.append_assoc]

theorem natToB64Digits_lt (k n : Nat) : ∀ d ∈ natToB64Digits k n, d < 64 := by
  induction k generalizing n with
  | zero => intro d hd; simp [natToB64Digits] at hd
  | succ k' ih =>
    intro d hd
    show d < 64
    have : d ∈ natToB64Digits k' (n / 64) ++ [n % 64] := hd
    rcases List.mem_append.mp this with h | h
    · exact ih (n / 64) d h
    · simp at h
      omega

theorem stripLeadingPadding_eq_naiveLeftTrimA (s : List Char)
    (h : ∀ c ∈ s, c.isWhitespace = false) :
    stripLeadingPadding s = naiveLeftTrimA s := by
  induction s with
  | nil => rfl
  | cons c t ih =>
    have hc : c.isWhitespace = false := h c (by simp)
    have ht : ∀ x ∈ t, x.isWhitespace = false := fun x hx => h x (by simp [hx])
    have hcs : c ≠ ' ' := by
      intro hcs
      rw [hcs] at hc
      simp at hc
    by_cases hA : c = 'A'
    · subst hA
      show (((' ' :: t.map fun c => if c = 'A' then ' ' else c).dropWhile
          Char.isWhitespace).map fun c => if c = ' ' then 'A' else c) =
          naiveLeftTrimA ('A' :: t)
      rw [List.dropWhile_cons_of_pos (by decide)]
      rw [show naiveLeftTrimA ('A' :: t) = naiveLeftTrimA t from
        List.dropWhile_cons_of_pos (by decide)]
      exact ih ht
    · show ((((if c = 'A' then ' ' else c) ::
          t.map fun x => if x = 'A' then ' ' else x).dropWhile
          Char.isWhitespace).map fun x => if x = ' ' then 'A' else x) =
          naiveLeftTrimA (c :: t)
      rw [if_neg hA]
      rw [show List.dropWhile Char.isWhitespace
          (c :: t.map fun x => if x = 'A' then ' ' else x) =
          c :: t.map fun x => if x = 'A' then ' ' else x by
        rw [List.dropWhile_cons]
        rw [hc]
        simp]
      rw [show naiveLeftTrimA (c :: t) = c :: t by
        unfold naiveLeftTrimA
        rw [List.dropWhile_cons]
        simp [hA]]
      simp only [List.map_cons, List.map_map]
      rw [if_neg hcs]
      rw [show t.map ((fun x => if x = ' ' then 'A' else x) ∘
          fun x => if x = 'A' then ' ' else x) = t.map id from
        List.map_congr_left fun x hx => by
          by_cases hxA : x = 'A'
          · simp [hxA, Function.comp]
          · have hxs : x ≠ ' ' := by
              intro hxs
              have := ht x hx
              rw [hxs] at this
              simp at this
            simp [Function.comp, hxA, hxs]]
      rw [List.map_id t]

theorem naiveLeftTrimA_replicate_append (p : Nat) (s : List Char) :
    naiveLeftTrimA (List.replicate p 'A' ++ s) = naiveLeftTrimA s := by
  induction p with
  | zero => rfl
  | succ n ih =>
    rw [List.replicate_succ, List.cons_append]
    unfold naiveLeftTrimA at *
    rw [List.dropWhile_cons_of_pos (by decide)]
    exact ih

theorem naiveLeftTrimA_of_head_ne (s : List Char) (h : s.head? ≠ some 'A') :
    naiveLeftTrimA s = s := by
  cases s with
  | nil => rfl
  | cons c t =>
    have hc : c ≠ 'A' := by
      intro hc
      exact h (by rw [hc]; rfl)
    unfold naiveLeftTrimA
    rw [List.dropWhile_cons]
    simp [hc]

theorem b64encode12_of_digits (code : List Char)
    (hall : code.all isB64Char = true) (hlen : code.length ≤ 12) :
    b64encode12 (b64digitsVal (code.map b64val)) =
      List.replicate (12 - code.length) 'A' ++ code := by
  have hall' : ∀ c ∈ code, isB64Char c = true := List.all_eq_true.mp hall
  have hlt : ∀ d ∈ code.map b64val, d < 64 := by
    intro d hd
    rcases List.mem_map.mp hd with ⟨c, hc, rfl⟩
    exact b64val_lt_of_isB64Char (hall' c hc)
  unfold b64encode12
  rw [natToB64Digits_b64digitsVal (code.map b64val) 12
    (by simpa using hlen) hlt]
  rw [List.map_append, List.map_replicate]
  rw [show b64chr 0 = 'A' by decide]
  rw [List.map_map]
  rw [show code.length = (code.map b64val).length by simp]
  congr 1
  rw [show code.map (b64chr ∘ b64val) = code.map id from
    List.map_congr_left fun c hc => b64chr_b64val (hall' c hc)]
  exact List.map_id code

theorem b64encode12_chars_not_whitespace (m : Nat) :
    ∀ c ∈ b64encode12 m, c.isWhitespace = false := by
  intro c hc
  rcases List.mem_map.mp hc with ⟨d, hd, rfl⟩
  have hdlt : d < 64 := natToB64Digits_lt 12 m d hd
  have hmem : isB64Char (b64chr d) = true := by
    have htab : ∀ x : Fin 64, isB64Char (b64chr x.val) = true := by decide
    exact htab ⟨d, hdlt⟩
  exact isB64Char_not_whitespace hmem

theorem mediaid_to_shortcode_of_small {m : Nat} (hm : m < 2 ^ 64) :
    mediaid_to_shortcode m = some (naiveLeftTrimA (b64encode12 m)) := by
  unfold mediaid_to_shortcode
  rw [if_neg (by
    have : bit_length m ≤ 64 := Nat.size_le.mpr hm
    omega)]
  rw [stripLeadingPadding_eq_naiveLeftTrimA _ (b64encode12_chars_not_whitespace m)]

/-- C5 (amended): the padding-stripping step of `mediaid_to_shortcode`
(replace every `'A'` of the 12-character encoding by a space, strip leading
whitespace, restore the remaining spaces to `'A'`) IS equivalent to the naive
left-trim of the padding character from that encoding — both elide exactly the
maximal leading run of `'A'` and both preserve interior occurrences — because
the encoding never contains whitespace.  The claimed inequivalence does not
exist (see the counterexample theorem refuting the claimed existence). -/
theorem padding_strip_equals_left_trim :
    (∀ m : Nat, m < 2 ^ 64 →
      mediaid_to_shortcode m = some (naiveLeftTrimA (b64encode12 m))) ∧
    (∀ s : List Char, (∀ c ∈ s, c.isWhitespace = false) →
      stripLeadingPadding s = naiveLeftTrimA s) :=
  ⟨fun _ hm => mediaid_to_shortcode_of_small hm,
   stripLeadingPadding_eq_naiveLeftTrimA⟩

/-- C5 (counterexample to the claim as stated): there is NO mediaid whose
12-character base64 encoding is stripped differently by the implemented
replace/lstrip/restore scheme and by the naive left-trim of `'A'`;
the claimed diverging input does not exist. -/
theorem padding_strip_divergence_refuted :
    ¬ ∃ m : Nat, stripLeadingPadding (b64encode12 m) ≠
      naiveLeftTrimA (b64encode12 m) := by
  rintro ⟨m, hne⟩
  exact hne (stripLeadingPadding_eq_naiveLeftTrimA _
    (b64encode12_chars_not_whitespace m))

theorem padding_strip_equals_left_trim_witness :
    1 < 2 ^ 64 ∧
    mediaid_to_shortcode 1 = some (naiveLeftTrimA (b64encode12 1)) :=
  ⟨by norm_num, padding_strip_equals_left_trim.1 1 (by norm_num)⟩

/-- C1 (counterexample to the claim as stated): `"QAAAAAAAAAA"` is a valid
11-character short code over the URL-safe base64 alphabet not beginning with
the padding character, yet the round trip fails: its decoded value is `2^64`,
which `mediaid_to_shortcode` rejects with the invalid-argument condition
(`bit_length > 64`) instead of returning the code. -/
theorem shortcode_roundtrip_overflow_counterexample :
    ('Q' :: List.replicate 10 'A').length ≤ 11 ∧
    ('Q' :: List.replicate 10 'A').all isB64Char = true ∧
    ('Q' :: List.replicate 10 'A').head? ≠ some 'A' ∧
    (shortcode_to_mediaid ('Q' :: List.replicate 10 'A')).bind
      mediaid_to_shortcode ≠ some ('Q' :: List.replicate 10 'A') := by
  refine ⟨by decide, by decide, by decide, ?_⟩
  rw [show shortcode_to_mediaid ('Q' :: List.replicate 10 'A') =
    some (2 ^ 64) from by decide]
  rw [Option.some_bind]
  unfold mediaid_to_shortcode
  rw [if_pos (by
    unfold bit_length
    exact Nat.lt_size.mpr (le_refl (2 ^ 64)))]
  intro h
  exact Option.noConfusion h

/-- C1 (amended): for every short code of length at most 11 over the URL-safe
base64 alphabet (`-`/`_` as the alternate symbols) that does not begin with
the padding character `'A'` AND whose decoded numeric value fits in 64 bits
(codes of length ≤ 10 always do; 11-character codes only when the leading
character's digit value is below 16), the round trip
`mediaid_to_shortcode (shortcode_to_mediaid c) = c` holds; in particular
`shortcode_to_mediaid "B" = 1` and `mediaid_to_shortcode 1 = "B"`. -/
theorem shortcode_mediaid_roundtrip :
    (∀ code : List Char,
      code.length ≤ 11 →
      code.all isB64Char = true →
      code.head? ≠ some 'A' →
      b64digitsVal (code.map b64val) < 2 ^ 64 →
      (shortcode_to_mediaid code).bind mediaid_to_shortcode = some code) ∧
    shortcode_to_mediaid ['B'] = some 1 ∧
    mediaid_to_shortcode 1 = some ['B'] := by
  refine ⟨?_, by decide, ?_⟩
  · intro code hlen hall hhead hv
    have hrep : (List.replicate (12 - code.length) 'A').all isB64Char = true :=
      List.all_eq_true.mpr fun c hc => by
        rw [List.eq_of_mem_replicate hc]; decide
    unfold shortcode_to_mediaid
    rw [if_neg (by omega), if_pos (by rw [List.all_append, hrep, hall]; rfl)]
    rw [Option.some_bind]
    rw [List.map_append, List.map_replicate,
      show b64val 'A' = 0 from by decide, b64digitsVal_replicate_zero]
    rw [mediaid_to_shortcode_of_small hv]
    rw [b64encode12_of_digits code hall (by omega)]
    rw [naiveLeftTrimA_replicate_append, naiveLeftTrimA_of_head_ne code hhead]
  · rw [mediaid_to_shortcode_of_small (by norm_num)]
    decide

theorem shortcode_mediaid_roundtrip_witness :
    ['B'].length ≤ 11 ∧ ['B'].all isB64Char = true ∧
    ['B'].head? ≠ some 'A' ∧ b64digitsVal (['B'].map b64val) < 2 ^ 64 ∧
    (shortcode_to_mediaid ['B']).bind mediaid_to_shortcode = some ['B'] :=
  ⟨by decide, by decide, by decide, by decide,
    shortcode_mediaid_roundtrip.1 ['B'] (by decide) (by decide) (by decide)
      (by decide)⟩

/-! ## `Story.unique_id`, equality and hash -/

theorem insertionSort_eq_of_perm {l1 l2 : List Int} (h : l1.Perm l2) :
    List.insertionSort (· ≤ ·) l1 = List.insertionSort (· ≤ ·) l2 :=
  List.eq_of_perm_of_sorted
    (((List.perm_insertionSort _ l1).trans h).trans
      (List.perm_insertionSort _ l2).symm)
    (List.sorted_insertionSort _ l1) (List.sorted_insertionSort _ l2)

theorem story_unique_id_eval (ctx : ProfileCtx) (st : Story) (ids : List Int)
    (pr pr2 : Profile) (oid : Int) (n : Nat)
    (hcell : st.unique_id_cell = none)
    (hitems : Story.item_mediaids st = .ok ids)
    (hown : Story.owner_profile st = .ok pr)
    (huid : Profile.userid ctx pr = (.ok oid, pr2, n)) :
    Story.unique_id ctx st =
      (.ok (String.join (toString oid ::
          (List.insertionSort (· ≤ ·) ids).map toString)),
        { st with unique_id_cell := some (String.join (toString oid ::
          (List.insertionSort (· ≤ ·) ids).map toString)) }, n) := by
  simp only [Story.unique_id, hcell, hitems, hown, huid, uniqueIdCellUnset,
    if_true]

/-- C3 (amended): `Story.unique_id` equals the decimal text of the owner's
numeric id concatenated (no separator) with every item's mediaid in ascending
order — owner id 42 with item ids 5, 3, 9 yields `"42359"` — and it is
invariant under permutation of the original item order.  However, the claimed
distinctness for differing owner ids or item sets does NOT hold: the
unseparated concatenation can collide for different (owner, items) pairs (see
the counterexample theorem: owner 1 with item 23 and owner 12 with item 3 both
yield `"123"`). -/
theorem story_unique_id_spec :
    (Story.unique_id ⟨.ok []⟩ (Story.init
        [("user", Val.obj [("username", Val.str "u"), ("id", Val.num 42)]),
         ("items", Val.arr [Val.obj [("id", Val.num 5)],
           Val.obj [("id", Val.num 3)], Val.obj [("id", Val.num 9)]])])).1
      = .ok "42359" ∧
    (∀ (ctxA ctxB : ProfileCtx) (sA sB : Story) (idsA idsB : List Int)
      (prA prB prA2 prB2 : Profile) (oid : Int) (nA nB : Nat),
      sA.unique_id_cell = none → sB.unique_id_cell = none →
      Story.item_mediaids sA = .ok idsA → Story.item_mediaids sB = .ok idsB →
      idsA.Perm idsB →
      Story.owner_profile sA = .ok prA → Story.owner_profile sB = .ok prB →
      Profile.userid ctxA prA = (.ok oid, prA2, nA) →
      Profile.userid ctxB prB = (.ok oid, prB2, nB) →
      (Story.unique_id ctxA sA).1 = (Story.unique_id ctxB sB).1) := by
  constructor
  · rfl
  · intro ctxA ctxB sA sB idsA idsB prA prB prA2 prB2 oid nA nB
      hcA hcB hiA hiB hperm hoA hoB huA huB
    rw [story_unique_id_eval ctxA sA idsA prA prA2 oid nA hcA hiA hoA huA]
    rw [story_unique_id_eval ctxB sB idsB prB prB2 oid nB hcB hiB hoB huB]
    rw [insertionSort_eq_of_perm hperm]

theorem story_unique_id_spec_witness :
    ([(5 : Int), 3, 9].Perm [9, 5, 3]) ∧
    (Story.unique_id ⟨.ok []⟩ (Story.init
        [("user", Val.obj [("username", Val.str "u"), ("id", Val.num 42)]),
         ("items", Val.arr [Val.obj [("id", Val.num 5)],
           Val.obj [("id", Val.num 3)], Val.obj [("id", Val.num 9)]])])).1 =
    (Story.unique_id ⟨.ok []⟩ (Story.init
        [("user", Val.obj [("username", Val.str "u"), ("id", Val.num 42)]),
         ("items", Val.arr [Val.obj [("id", Val.num 9)],
           Val.obj [("id", Val.num 5)], Val.obj [("id", Val.num 3)]])])).1 :=
  ⟨by decide,
    story_unique_id_spec.2 ⟨.ok []⟩ ⟨.ok []⟩ _ _ [5, 3, 9] [9, 5, 3]
      ⟨Val.obj [("username", Val.str "u"), ("id", Val.num 42)]⟩
      ⟨Val.obj [("username", Val.str "u"), ("id", Val.num 42)]⟩
      ⟨Val.obj [("username", Val.str "u"), ("id", Val.num 42)]⟩
      ⟨Val.obj [("username", Val.str "u"), ("id", Val.num 42)]⟩
      42 0 0 rfl rfl rfl rfl (by decide) rfl rfl rfl rfl⟩

/-- C3 (counterexample to the claimed distinctness): the story of owner 1 with
the single item 23 and the story of owner 12 with the single item 3 have
different owner ids, yet both have `unique_id = "123"` — two `Story` instances
differing in owner id (and in item-id set) with EQUAL `unique_id`. -/
theorem story_unique_id_collision_counterexample :
    (Story.unique_id ⟨.ok []⟩ (Story.init
        [("user", Val.obj [("username", Val.str "u"), ("id", Val.num 1)]),
         ("items", Val.arr [Val.obj [("id", Val.num 23)]])])).1
      = .ok "123" ∧
    (Story.unique_id ⟨.ok []⟩ (Story.init
        [("user", Val.obj [("username", Val.str "v"), ("id", Val.num 12)]),
         ("items", Val.arr [Val.obj [("id", Val.num 3)]])])).1
      = .ok "123" ∧
    walkKeys (Val.obj [("user", Val.obj [("username", Val.str "u"),
        ("id", Val.num 1)]),
        ("items", Val.arr [Val.obj [("id", Val.num 23)]])]) ["user", "id"]
      = .ok (Val.num 1) ∧
    walkKeys (Val.obj [("user", Val.obj [("username", Val.str "v"),
        ("id", Val.num 12)]),
        ("items", Val.arr [Val.obj [("id", Val.num 3)]])]) ["user", "id"]
      = .ok (Val.num 12) :=
  ⟨rfl, rfl, rfl, rfl⟩

/-- C4: `Story.__hash__` hashes the raw memo cell `self._unique_id` instead of
the `unique_id` property.  Two stories over the same record (owner 42, items
5, 3, 9) compare equal (`__eq__` forces `unique_id` on both sides), but if
`unique_id` has been computed on one and not on the other, the code hashes the
string `"42359"` on one side and `None` on the other: equal instances hash
differently, contradicting the documented usability as set/dict keys. -/
theorem story_hash_breaks_eq_hash_contract :
    (Story.eq ⟨.ok []⟩
        ((Story.unique_id ⟨.ok []⟩ (Story.init
          [("user", Val.obj [("username", Val.str "u"), ("id", Val.num 42)]),
           ("items", Val.arr [Val.obj [("id", Val.num 5)],
             Val.obj [("id", Val.num 3)], Val.obj [("id", Val.num 9)]])])).2.1)
        (Story.init
          [("user", Val.obj [("username", Val.str "u"), ("id", Val.num 42)]),
           ("items", Val.arr [Val.obj [("id", Val.num 5)],
             Val.obj [("id", Val.num 3)], Val.obj [("id", Val.num 9)]])])).1
      = .ok true ∧
    Story.hash
        ((Story.unique_id ⟨.ok []⟩ (Story.init
          [("user", Val.obj [("username", Val.str "u"), ("id", Val.num 42)]),
           ("items", Val.arr [Val.obj [("id", Val.num 5)],
             Val.obj [("id", Val.num 3)], Val.obj [("id", Val.num 9)]])])).2.1)
      ≠ Story.hash (Story.init
          [("user", Val.obj [("username", Val.str "u"), ("id", Val.num 42)]),
           ("items", Val.arr [Val.obj [("id", Val.num 5)],
             Val.obj [("id", Val.num 3)], Val.obj [("id", Val.num 9)]])]) :=
  ⟨rfl, by decide⟩

/-! ## Memoization of the full-record fetch (Post and Profile resolvers) -/

theorem post_field_cached (ctx : PostCtx) {p : Post} {v : Val}
    (hcell : p.full_metadata_dict = some v) (hv : v.truthy = true)
    (ks : List String) :
    (Post.field ctx p ks).2 = (p, 0) := by
  unfold Post.field
  cases hw : walkKeys (Val.obj p.node) ks with
  | ok w => rfl
  | error e =>
    have hfm : Post.full_metadata ctx p = (.ok v, p, 0) := by
      unfold Post.full_metadata
      simp only [hcell, cellTruthy, hv, if_true]
    cases e
    case keyError => rw [hfm]
    all_goals rfl

theorem post_run_cached {ctx : PostCtx} {p : Post} {v : Val}
    (hcell : p.full_metadata_dict = some v) (hv : v.truthy = true) :
    ∀ L, Post.run_fields ctx p L = (p, 0) := by
  intro L
  induction L with
  | nil => rfl
  | cons ks rest ih =>
    have h := post_field_cached ctx hcell hv ks
    simp only [Post.run_fields, h, ih]

theorem post_field_step {ctx : PostCtx} {p : Post} {v : Val} (ks : List String)
    (hok : extract_full ctx.full_response = .ok v)
    (hnone : p.full_metadata_dict = none) :
    (Post.field ctx p ks).2 = (p, 0) ∨
    (Post.field ctx p ks).2 = ({ p with full_metadata_dict := some v }, 1) := by
  unfold Post.field
  cases hw : walkKeys (Val.obj p.node) ks with
  | ok w => left; rfl
  | error e =>
    have hfm : Post.full_metadata ctx p =
        (.ok v, { p with full_metadata_dict := some v }, 1) := by
      unfold Post.full_metadata
      simp only [hnone, cellTruthy, Bool.false_eq_true, if_false, hok]
    cases e
    case keyError => right; rw [hfm]
    all_goals left; rfl

theorem post_run_le_one {ctx : PostCtx} {v : Val}
    (hok : extract_full ctx.full_response = .ok v) (hv : v.truthy = true) :
    ∀ (L : List (List String)) (p : Post), p.full_metadata_dict = none →
      (Post.run_fields ctx p L).2 ≤ 1 := by
  intro L
  induction L with
  | nil => intro p _; exact Nat.zero_le 1
  | cons ks rest ih =>
    intro p hnone
    rcases post_field_step ks hok hnone with h | h
    · simp only [Post.run_fields, h]
      rw [Nat.zero_add]
      exact ih p hnone
    · simp only [Post.run_fields, h]
      rw [post_run_cached (v := v) rfl hv rest]
      exact Nat.le_refl 1

theorem profile_metadata_cached (ctx : ProfileCtx) {u : Val}
    (ks : List String) (hw : ∃ w, walkKeys u ks = Except.ok w) :
    (Profile.metadata ctx ⟨u⟩ ks).2 = (⟨u⟩, 0) := by
  rcases hw with ⟨w, hw⟩
  unfold Profile.metadata
  rw [hw]

theorem profile_run_cached {ctx : ProfileCtx} {u : Val} :
    ∀ L : List (List String), (∀ ks ∈ L, ∃ w, walkKeys u ks = Except.ok w) →
      Profile.run_metadata ctx ⟨u⟩ L = (⟨u⟩, 0) := by
  intro L
  induction L with
  | nil => intro _; rfl
  | cons ks rest ih =>
    intro hall
    have h := profile_metadata_cached ctx ks (hall ks (by simp))
    have h2 := ih fun k hk => hall k (by simp [hk])
    simp only [Profile.run_metadata, h, h2]

theorem profile_metadata_step {ctx : ProfileCtx} (pr : Profile) {u : Val}
    (ks : List String) (hobt : Profile.obtain_metadata ctx = (.ok ⟨u⟩, 1)) :
    (Profile.metadata ctx pr ks).2 = (pr, 0) ∨
    (Profile.metadata ctx pr ks).2 = (⟨u⟩, 1) := by
  unfold Profile.metadata
  cases hw : walkKeys pr.node ks with
  | ok w => left; rfl
  | error e =>
    cases e
    case keyError => right; rw [hobt]
    all_goals left; rfl

theorem profile_run_le_one {ctx : ProfileCtx} {u : Val}
    (hobt : Profile.obtain_metadata ctx = (.ok ⟨u⟩, 1)) :
    ∀ (L : List (List String)),
      (∀ ks ∈ L, ∃ w, walkKeys u ks = Except.ok w) →
      ∀ pr : Profile, (Profile.run_metadata ctx pr L).2 ≤ 1 := by
  intro L
  induction L with
  | nil => intro _ pr; exact Nat.zero_le 1
  | cons ks rest ih =>
    intro hall pr
    rcases profile_metadata_step pr ks hobt with h | h
    · simp only [Profile.run_metadata, h]
      rw [Nat.zero_add]
      exact ih (fun k hk => hall k (by simp [hk])) pr
    · simp only [Profile.run_metadata, h]
      rw [profile_run_cached rest fun k hk => hall k (by simp [hk])]
      exact Nat.le_refl 1

/-- C2 (counterexample to the claim as stated): `Profile._metadata` has no
memo flag, so the full-record fetch is NOT issued at most once per instance:
on a profile seeded with `{'username': 'x'}` against a transport whose user
record also lacks `biography`, two accesses of `biography` issue two outbound
fetches (each access misses the partial record, re-fetches, and misses
again). -/
theorem profile_metadata_refetch_counterexample :
    ¬ ((Profile.run_metadata
        ⟨.ok [("user", Val.obj [("username", Val.str "x")])]⟩
        ⟨Val.obj [("username", Val.str "x")]⟩
        [["biography"], ["biography"]]).2 ≤ 1) := by
  decide

/-- C2 (amended): (Post) once `Post._full_metadata` has been fetched AND the
extracted record is truthy (the `if not self._full_metadata_dict` test
re-fetches when the cache is falsy), every subsequent resolver call reuses the
cached record, so any sequence of `_field` calls issues at most one outbound
fetch.  (Profile) `_metadata` keeps no fetched-flag: a sequence of resolver
calls on fields that are all present in the fetched user record issues at
most one outbound fetch, but a call on a field absent even from the fetched
record re-fetches on every such access (see the counterexample theorem). -/
theorem full_record_fetch_memoized :
    (∀ (ctx : PostCtx) (v : Val) (L : List (List String)) (p : Post),
      extract_full ctx.full_response = .ok v → v.truthy = true →
      p.full_metadata_dict = none →
      (Post.run_fields ctx p L).2 ≤ 1) ∧
    (∀ (ctx : ProfileCtx) (u : Val) (L : List (List String)) (pr : Profile),
      Profile.obtain_metadata ctx = (.ok ⟨u⟩, 1) →
      (∀ ks ∈ L, ∃ w, walkKeys u ks = Except.ok w) →
      (Profile.run_metadata ctx pr L).2 ≤ 1) :=
  ⟨fun _ _ L p hok hv hnone => post_run_le_one hok hv L p hnone,
   fun _ _ L pr hobt hall => profile_run_le_one hobt L hall pr⟩

theorem full_record_fetch_memoized_witness :
    ((Post.run_fields
        ⟨[("graphql", Val.obj [("shortcode_media",
            Val.obj [("likes", Val.num 3)])])], [], []⟩
        ⟨[("shortcode", Val.str "c"), ("id", Val.str "1"),
          ("owner", Val.obj []), ("taken_at_timestamp", Val.num 0),
          ("display_url", Val.str "u"), ("is_video", Val.bool false)], none⟩
        [["likes"], ["likes"], ["likes"]]).2 ≤ 1) ∧
    ((Profile.run_metadata
        ⟨.ok [("user", Val.obj [("username", Val.str "x")])]⟩
        ⟨Val.obj [("username", Val.str "x")]⟩
        [["username"], ["username"]]).2 ≤ 1) :=
  ⟨full_record_fetch_memoized.1 _ (Val.obj [("likes", Val.num 3)]) _ _
      rfl rfl rfl,
   full_record_fetch_memoized.2 _ (Val.obj [("username", Val.str "x")]) _ _
      rfl (by
        intro ks hks
        simp only [List.mem_cons, List.not_mem_nil, or_false] at hks
        rcases hks with h | h <;>
          exact h ▸ ⟨Val.str "x", rfl⟩)⟩

/-! ## Construction-time contracts -/

theorem post_node_ok_iff (node : Dict) :
    post_node_ok node = true ↔
      ((dhas node "shortcode" = true ∨ dhas node "code" = true) ∧
       dhas node "id" = true ∧ dhas node "owner" = true ∧
       (dhas node "date" = true ∨ dhas node "taken_at_timestamp" = true) ∧
       (dhas node "display_url" = true ∨ dhas node "display_src" = true) ∧
       dhas node "is_video" = true) := by
  unfold post_node_ok
  simp only [Bool.and_eq_true, Bool.or_eq_true]
  tauto

/-- C6: `Post.__init__` fails at construction time with a contract failure
(`AssertionError`) exactly when one of the six mandatory fields is missing
from the seed record — a shortcode field (`shortcode` or `code`), `id`,
`owner`, a timestamp field (`date` or `taken_at_timestamp`), an image URL
field (`display_url` or `display_src`), or `is_video` — and a record
containing all six succeeds, yielding the untouched record; the outcome is
decided at construction (the constructor either returns the fully formed
state or the contract failure), never deferred to a later property access. -/
theorem post_init_mandatory_fields :
    ∀ node : Dict,
      (Post.init node = .ok ⟨node, none⟩ ∨
        Post.init node = .error .assertionError) ∧
      (Post.init node = .ok ⟨node, none⟩ ↔
        (dhas node "shortcode" = true ∨ dhas node "code" = true) ∧
        dhas node "id" = true ∧ dhas node "owner" = true ∧
        (dhas node "date" = true ∨ dhas node "taken_at_timestamp" = true) ∧
        (dhas node "display_url" = true ∨ dhas node "display_src" = true) ∧
        dhas node "is_video" = true) := by
  intro node
  by_cases hc : post_node_ok node = true
  · have hinit : Post.init node = .ok ⟨node, none⟩ := by
      unfold Post.init
      rw [if_pos hc]
    exact ⟨Or.inl hinit,
      ⟨fun _ => (post_node_ok_iff node).mp hc, fun _ => hinit⟩⟩
  · have hinit : Post.init node = .error .assertionError := by
      unfold Post.init
      rw [if_neg hc]
    refine ⟨Or.inr hinit, ⟨fun h => ?_,
      fun hf => absurd ((post_node_ok_iff node).mpr hf) hc⟩⟩
    rw [hinit] at h
    exact Except.noConfusion h

theorem post_init_mandatory_fields_witness :
    Post.init [("shortcode", Val.str "c"), ("id", Val.str "1"),
        ("owner", Val.obj []), ("taken_at_timestamp", Val.num 0),
        ("display_url", Val.str "u"), ("is_video", Val.bool false)] =
      .ok ⟨[("shortcode", Val.str "c"), ("id", Val.str "1"),
        ("owner", Val.obj []), ("taken_at_timestamp", Val.num 0),
        ("display_url", Val.str "u"), ("is_video", Val.bool false)], none⟩ ∧
    Post.init [("id", Val.str "1"), ("owner", Val.obj []),
        ("taken_at_timestamp", Val.num 0), ("display_url", Val.str "u"),
        ("is_video", Val.bool false)] = .error .assertionError :=
  ⟨(post_init_mandatory_fields _).2.mpr
    ⟨Or.inl rfl, rfl, rfl, Or.inr rfl, Or.inl rfl, rfl⟩, rfl⟩

/-- C10: `StoryItem.__init__` performs no structural validation: for every
record — the empty mapping included — construction succeeds and stores the
record untouched (unlike `Post.__init__` and `Profile.__init__`, which fail
with a contract failure on the empty record); a missing field surfaces as a
`KeyError` lookup failure only when the corresponding property (`mediaid`,
`date_local`) is first accessed, and the same access succeeds once the field
is present. -/
theorem storyitem_no_construction_validation :
    (∀ node : Dict, StoryItem.init node = ⟨node⟩) ∧
    StoryItem.mediaid (StoryItem.init []) = .error .keyError ∧
    StoryItem.date_local (StoryItem.init []) = .error .keyError ∧
    StoryItem.mediaid (StoryItem.init [("id", Val.str "7")]) = .ok 7 ∧
    StoryItem.date_local
      (StoryItem.init [("taken_at_timestamp", Val.num 5)]) = .ok 5 ∧
    Post.init [] = .error .assertionError ∧
    Profile.init (Val.obj []) = .error .assertionError :=
  ⟨fun _ => rfl, rfl, rfl, rfl, rfl, rfl, rfl⟩

/-! ## `get_comments` / `get_likes` short-circuiting -/

theorem post_field_local (ctx : PostCtx) {p : Post} {w : Val} {ks : List String}
    (hw : walkKeys (Val.obj p.node) ks = .ok w) :
    Post.field ctx p ks = (.ok w, p, 0) := by
  unfold Post.field
  rw [hw]

/-- C7 (amended): for every `Post` whose partial record locally embeds the
declared count (and, where used, the edge list): a declared count of 0 yields
the empty sequence with zero outbound calls; a declared count equal to the
length of the locally embedded edge list yields exactly those edges' `node`
records with zero outbound calls; otherwise the pagination consumer is
invoked (exactly one outbound call) and the result is exactly the sequence
the consumer produces — its length equals the declared count precisely when
the consumer honours the §4.6 contract.  (When the count or edge list is not
locally embedded, resolving them can additionally issue the one-time
full-record fetch, so "zero outbound calls" fails — see the counterexample
theorem.)  Same for `get_likes` over the like connection. -/
theorem get_comments_likes_shortcircuit :
    (∀ (ctx : PostCtx) (p : Post) (cv : Val),
      walkKeys (Val.obj p.node) ["edge_media_to_comment", "count"] = .ok cv →
      cv.eqInt 0 = true →
      Post.get_comments ctx p = (.ok [], p, 0)) ∧
    (∀ (ctx : PostCtx) (p : Post) (cv : Val) (es ns : List Val),
      walkKeys (Val.obj p.node) ["edge_media_to_comment", "count"] = .ok cv →
      walkKeys (Val.obj p.node) ["edge_media_to_comment", "edges"] =
        .ok (Val.arr es) →
      cv.eqInt 0 = false →
      cv.eqInt es.length = true →
      project_edge_nodes es = .ok ns →
      Post.get_comments ctx p = (.ok ns, p, 0)) ∧
    (∀ (ctx : PostCtx) (p : Post) (cv : Val) (es : List Val),
      walkKeys (Val.obj p.node) ["edge_media_to_comment", "count"] = .ok cv →
      walkKeys (Val.obj p.node) ["edge_media_to_comment", "edges"] =
        .ok (Val.arr es) →
      cv.eqInt 0 = false →
      cv.eqInt es.length = false →
      Post.get_comments ctx p = (.ok ctx.paginated_comments, p, 1)) ∧
    (∀ (ctx : PostCtx) (p : Post) (cv : Val),
      walkKeys (Val.obj p.node) ["edge_media_preview_like", "count"] = .ok cv →
      cv.eqInt 0 = true →
      Post.get_likes ctx p = (.ok [], p, 0)) ∧
    (∀ (ctx : PostCtx) (p : Post) (cv : Val) (es ns : List Val),
      walkKeys (Val.obj p.node) ["edge_media_preview_like", "count"] = .ok cv →
      walkKeys (Val.obj p.node) ["edge_media_preview_like", "edges"] =
        .ok (Val.arr es) →
      cv.eqInt 0 = false →
      cv.eqInt es.length = true →
      project_edge_nodes es = .ok ns →
      Post.get_likes ctx p = (.ok ns, p, 0)) ∧
    (∀ (ctx : PostCtx) (p : Post) (cv : Val) (es : List Val),
      walkKeys (Val.obj p.node) ["edge_media_preview_like", "count"] = .ok cv →
      walkKeys (Val.obj p.node) ["edge_media_preview_like", "edges"] =
        .ok (Val.arr es) →
      cv.eqInt 0 = false →
      cv.eqInt es.length = false →
      Post.get_likes ctx p = (.ok ctx.paginated_likes, p, 1)) := by
  refine ⟨?_, ?_, ?_, ?_, ?_, ?_⟩
  · intro ctx p cv hwc h0
    simp [Post.get_comments, post_field_local ctx hwc, h0]
  · intro ctx p cv es ns hwc hwe h0 hlen hproj
    simp [Post.get_comments, post_field_local ctx hwc,
      post_field_local ctx hwe, h0, hlen, Val.pyLen, hproj]
  · intro ctx p cv es hwc hwe h0 hlen
    simp [Post.get_comments, post_field_local ctx hwc,
      post_field_local ctx hwe, h0, hlen, Val.pyLen]
  · intro ctx p cv hwc h0
    simp [Post.get_likes, post_field_local ctx hwc, h0]
  · intro ctx p cv es ns hwc hwe h0 hlen hproj
    simp [Post.get_likes, post_field_local ctx hwc,
      post_field_local ctx hwe, h0, hlen, Val.pyLen, hproj]
  · intro ctx p cv es hwc hwe h0 hlen
    simp [Post.get_likes, post_field_local ctx hwc,
      post_field_local ctx hwe, h0, hlen, Val.pyLen]

theorem get_comments_likes_shortcircuit_witness :
    Post.get_comments ⟨[], [], []⟩
      ⟨[("shortcode", Val.str "c"), ("id", Val.str "1"),
        ("owner", Val.obj []), ("taken_at_timestamp", Val.num 0),
        ("display_url", Val.str "u"), ("is_video", Val.bool false),
        ("edge_media_to_comment",
          Val.obj [("count", Val.num 0), ("edges", Val.arr [])])], none⟩ =
      (.ok [], ⟨[("shortcode", Val.str "c"), ("id", Val.str "1"),
        ("owner", Val.obj []), ("taken_at_timestamp", Val.num 0),
        ("display_url", Val.str "u"), ("is_video", Val.bool false),
        ("edge_media_to_comment",
          Val.obj [("count", Val.num 0), ("edges", Val.arr [])])], none⟩, 0) ∧
    Post.get_comments ⟨[], [], []⟩
      ⟨[("edge_media_to_comment", Val.obj [("count", Val.num 2),
        ("edges", Val.arr [Val.obj [("node", Val.str "c1")],
          Val.obj [("node", Val.str "c2")]])])], none⟩ =
      (.ok [Val.str "c1", Val.str "c2"],
        ⟨[("edge_media_to_comment", Val.obj [("count", Val.num 2),
          ("edges", Val.arr [Val.obj [("node", Val.str "c1")],
            Val.obj [("node", Val.str "c2")]])])], none⟩, 0) ∧
    Post.get_comments ⟨[], [Val.str "pag1"], []⟩
      ⟨[("edge_media_to_comment", Val.obj [("count", Val.num 5),
        ("edges", Val.arr [])])], none⟩ =
      (.ok [Val.str "pag1"],
        ⟨[("edge_media_to_comment", Val.obj [("count", Val.num 5),
          ("edges", Val.arr [])])], none⟩, 1) ∧
    Post.get_likes ⟨[], [], []⟩
      ⟨[("edge_media_preview_like", Val.obj [("count", Val.num 0)])], none⟩ =
      (.ok [], ⟨[("edge_media_preview_like",
        Val.obj [("count", Val.num 0)])], none⟩, 0) ∧
    Post.get_likes ⟨[], [], []⟩
      ⟨[("edge_media_preview_like", Val.obj [("count", Val.num 1),
        ("edges", Val.arr [Val.obj [("node", Val.str "l1")]])])], none⟩ =
      (.ok [Val.str "l1"],
        ⟨[("edge_media_preview_like", Val.obj [("count", Val.num 1),
          ("edges", Val.arr [Val.obj [("node", Val.str "l1")]])])], none⟩, 0) ∧
    Post.get_likes ⟨[], [], [Val.str "pag2"]⟩
      ⟨[("edge_media_preview_like", Val.obj [("count", Val.num 3),
        ("edges", Val.arr [])])], none⟩ =
      (.ok [Val.str "pag2"],
        ⟨[("edge_media_preview_like", Val.obj [("count", Val.num 3),
          ("edges", Val.arr [])])], none⟩, 1) :=
  ⟨get_comments_likes_shortcircuit.1 _ _ (Val.num 0) rfl rfl,
   get_comments_likes_shortcircuit.2.1 _ _ (Val.num 2)
     [Val.obj [("node", Val.str "c1")], Val.obj [("node", Val.str "c2")]]
     [Val.str "c1", Val.str "c2"] rfl rfl rfl rfl rfl,
   get_comments_likes_shortcircuit.2.2.1 _ _ (Val.num 5) [] rfl rfl rfl rfl,
   get_comments_likes_shortcircuit.2.2.2.1 _ _ (Val.num 0) rfl rfl,
   get_comments_likes_shortcircuit.2.2.2.2.1 _ _ (Val.num 1)
     [Val.obj [("node", Val.str "l1")]] [Val.str "l1"] rfl rfl rfl rfl rfl,
   get_comments_likes_shortcircuit.2.2.2.2.2 _ _ (Val.num 3) [] rfl rfl rfl rfl⟩

/-- C7 (counterexample to the claim as stated): on a `Post` whose partial
record does not embed the comment connection at all, a declared count of 0
does NOT come with zero outbound calls: resolving `self.comments` itself
triggers the one-time full-record fetch, so `get_comments` yields the empty
sequence after one outbound call. -/
theorem get_comments_zero_count_fetch_counterexample :
    (Post.get_comments
      ⟨[("graphql", Val.obj [("shortcode_media", Val.obj
          [("edge_media_to_comment", Val.obj [("count", Val.num 0)])])])],
        [], []⟩
      ⟨[("shortcode", Val.str "c"), ("id", Val.str "1"),
        ("owner", Val.obj []), ("taken_at_timestamp", Val.num 0),
        ("display_url", Val.str "u"), ("is_video", Val.bool false)],
        none⟩).1 = .ok [] ∧
    ¬ ((Post.get_comments
      ⟨[("graphql", Val.obj [("shortcode_media", Val.obj
          [("edge_media_to_comment", Val.obj [("count", Val.num 0)])])])],
        [], []⟩
      ⟨[("shortcode", Val.str "c"), ("id", Val.str "1"),
        ("owner", Val.obj []), ("taken_at_timestamp", Val.num 0),
        ("display_url", Val.str "u"), ("is_video", Val.bool false)],
        none⟩).2.2 = 0) :=
  ⟨rfl, by decide⟩

/-! ## `Profile.from_id` failure taxonomy -/

theorem post_init_shortcode_only (s : String) :
    Post.init [("shortcode", Val.str s)] = .error .assertionError := rfl

theorem post_from_shortcode_asserts (ctx : PostCtx) (s : String) :
    Post.from_shortcode ctx s = (.error .assertionError, 0) := by
  unfold Post.from_shortcode
  rw [post_init_shortcode_only]

/-- C8: the four failure branches behave exactly as claimed —
`Profile.from_id` fails with login-required on an unauthenticated session;
with an authenticated session it fails with profile-not-found when the query
response carries no user data (falsy), with profile-has-no-pics when the
connection's edges are empty and its count is 0, and with login-required when
the edges are empty but the count is non-zero.  The otherwise-branch, however,
never returns the claimed Profile: username resolution runs
`Post.from_mediaid`, i.e. `Post.from_shortcode`, whose seed record
`{'shortcode': ...}` violates `Post.__init__`'s own construction asserts
(`'id' in node`, `'owner' in node`, a timestamp field, an image URL field,
`'is_video'`), so every run that reaches the resolution branch raises
`AssertionError` instead of returning the Profile described by the claim. -/
theorem profile_from_id_taxonomy :
    (∀ (ctx : FromIdCtx) (pid : Int), ctx.is_logged_in = false →
      Profile.from_id ctx pid = .error .loginRequired) ∧
    (∀ (ctx : FromIdCtx) (pid : Int) (d : Val), ctx.is_logged_in = true →
      walkKeys (Val.obj ctx.query_json) ["data", "user"] = .ok d →
      d.truthy = false →
      Profile.from_id ctx pid = .error .profileNotExists) ∧
    (∀ (ctx : FromIdCtx) (pid : Int) (d conn ev cv : Val),
      ctx.is_logged_in = true →
      walkKeys (Val.obj ctx.query_json) ["data", "user"] = .ok d →
      d.truthy = true →
      d.getKey "edge_owner_to_timeline_media" = .ok conn →
      conn.getKey "edges" = .ok ev → ev.truthy = false →
      conn.getKey "count" = .ok cv → cv.eqInt 0 = true →
      Profile.from_id ctx pid = .error .profileHasNoPics) ∧
    (∀ (ctx : FromIdCtx) (pid : Int) (d conn ev cv : Val),
      ctx.is_logged_in = true →
      walkKeys (Val.obj ctx.query_json) ["data", "user"] = .ok d →
      d.truthy = true →
      d.getKey "edge_owner_to_timeline_media" = .ok conn →
      conn.getKey "edges" = .ok ev → ev.truthy = false →
      conn.getKey "count" = .ok cv → cv.eqInt 0 = false →
      Profile.from_id ctx pid = .error .loginRequired) ∧
    (∀ (ctx : FromIdCtx) (pid : Int) (d conn ev e0 n0 idv : Val) (mid : Int)
      (sc : List Char),
      ctx.is_logged_in = true →
      walkKeys (Val.obj ctx.query_json) ["data", "user"] = .ok d →
      d.truthy = true →
      d.getKey "edge_owner_to_timeline_media" = .ok conn →
      conn.getKey "edges" = .ok ev → ev.truthy = true →
      pyIndex ev 0 = .ok e0 → e0.getKey "node" = .ok n0 →
      n0.getKey "id" = .ok idv → idv.toIntE = .ok mid →
      mediaid_to_shortcodeE mid = .ok sc →
      Profile.from_id ctx pid = .error .assertionError) := by
  refine ⟨?_, ?_, ?_, ?_, ?_⟩
  · intro ctx pid hlog
    simp [Profile.from_id, hlog, Bind.bind, Except.bind, throw, throwThe,
      MonadExceptOf.throw]
  · intro ctx pid d hlog hwalk htr
    simp [Profile.from_id, hlog, hwalk, htr, Bind.bind, Except.bind,
      Pure.pure, Except.pure, throw, throwThe, MonadExceptOf.throw]
  · intro ctx pid d conn ev cv hlog hwalk htr hconn hedges hev hcnt h0
    simp [Profile.from_id, hlog, hwalk, htr, hconn, hedges, hev, hcnt, h0,
      Bind.bind, Except.bind, Pure.pure, Except.pure, throw, throwThe,
      MonadExceptOf.throw]
  · intro ctx pid d conn ev cv hlog hwalk htr hconn hedges hev hcnt h0
    simp [Profile.from_id, hlog, hwalk, htr, hconn, hedges, hev, hcnt, h0,
      Bind.bind, Except.bind, Pure.pure, Except.pure, throw, throwThe,
      MonadExceptOf.throw]
  · intro ctx pid d conn ev e0 n0 idv mid sc hlog hwalk htr hconn
      hedges hev hidx hnode hid hmid hsc
    simp [Profile.from_id, hlog, hwalk, htr, hconn, hedges, hev, hidx, hnode,
      hid, hmid, hsc, post_from_shortcode_asserts, Bind.bind, Except.bind,
      Pure.pure, Except.pure, throw, throwThe, MonadExceptOf.throw]

theorem profile_from_id_taxonomy_witness :
    Profile.from_id ⟨false, [], []⟩ 7 = .error .loginRequired ∧
    Profile.from_id ⟨true, [("data", Val.obj [("user", Val.null)])], []⟩ 7 =
      .error .profileNotExists ∧
    Profile.from_id ⟨true, [("data", Val.obj [("user", Val.obj
        [("edge_owner_to_timeline_media", Val.obj
          [("edges", Val.arr []), ("count", Val.num 0)])])])], []⟩ 7 =
      .error .profileHasNoPics ∧
    Profile.from_id ⟨true, [("data", Val.obj [("user", Val.obj
        [("edge_owner_to_timeline_media", Val.obj
          [("edges", Val.arr []), ("count", Val.num 9)])])])], []⟩ 7 =
      .error .loginRequired ∧
    Profile.from_id ⟨true, [("data", Val.obj [("user", Val.obj
        [("edge_owner_to_timeline_media", Val.obj
          [("edges", Val.arr [Val.obj [("node", Val.obj
            [("id", Val.str "1")])]]), ("count", Val.num 1)])])])],
        [("graphql", Val.obj [("shortcode_media", Val.obj
          [("owner", Val.obj [("username", Val.str "OwnerName")])])])]⟩ 9 =
      .error .assertionError :=
  ⟨profile_from_id_taxonomy.1 _ 7 rfl,
   profile_from_id_taxonomy.2.1 _ 7 Val.null rfl rfl rfl,
   profile_from_id_taxonomy.2.2.1 _ 7
     (Val.obj [("edge_owner_to_timeline_media", Val.obj
       [("edges", Val.arr []), ("count", Val.num 0)])])
     (Val.obj [("edges", Val.arr []), ("count", Val.num 0)])
     (Val.arr []) (Val.num 0) rfl rfl rfl rfl rfl rfl rfl rfl,
   profile_from_id_taxonomy.2.2.2.1 _ 7
     (Val.obj [("edge_owner_to_timeline_media", Val.obj
       [("edges", Val.arr []), ("count", Val.num 9)])])
     (Val.obj [("edges", Val.arr []), ("count", Val.num 9)])
     (Val.arr []) (Val.num 9) rfl rfl rfl rfl rfl rfl rfl rfl,
   profile_from_id_taxonomy.2.2.2.2 _ 9
     (Val.obj [("edge_owner_to_timeline_media", Val.obj
       [("edges", Val.arr [Val.obj [("node", Val.obj
         [("id", Val.str "1")])]]), ("count", Val.num 1)])])
     (Val.obj [("edges", Val.arr [Val.obj [("node", Val.obj
       [("id", Val.str "1")])]]), ("count", Val.num 1)])
     (Val.arr [Val.obj [("node", Val.obj [("id", Val.str "1")])]])
     (Val.obj [("node", Val.obj [("id", Val.str "1")])])
     (Val.obj [("id", Val.str "1")]) (Val.str "1") 1 ['B']
     rfl rfl rfl rfl rfl rfl rfl rfl rfl rfl
     (by
       unfold mediaid_to_shortcodeE
       rw [if_neg (by norm_num)]
       rw [show ((1 : Int).toNat) = 1 from rfl]
       rw [mediaid_to_shortcode_of_small (by norm_num)]
       rfl)⟩

/-! ## `Profile.get_profile_pic_url` -/

/-- C9 (amended): whenever the high-resolution lookup through the anonymous
endpoint fails with a transport error or a missing-field (`KeyError`) error —
any exception caught by `except (InstaloaderException, KeyError)` — the
failure is logged and the standard-resolution field `profile_pic_url_hd`
resolved through the field resolver is returned instead; no error escapes
PROVIDED the fallback field itself resolves (is present in the partial or
fetched record).  When the fallback field is absent from both, the resolver's
`KeyError` propagates to the caller after all (see the counterexample
theorem), so the path is not unconditionally error-free. -/
theorem profile_pic_url_fallback :
    ∀ (ctx : PicCtx) (pr pr1 pr2 : Profile) (uid : Int) (n1 n2 : Nat)
      (e : PyErr) (v : Val),
      Profile.userid ctx.profile_ctx pr = (.ok uid, pr1, n1) →
      hi_res_lookup ctx = .error e →
      caughtByPicHandler e = true →
      Profile.metadata ctx.profile_ctx pr1 ["profile_pic_url_hd"] =
        (.ok v, pr2, n2) →
      Profile.get_profile_pic_url ctx pr = (.ok v, pr2, n1 + 1 + n2, true) := by
  intro ctx pr pr1 pr2 uid n1 n2 e v huid hhi hcaught hmeta
  unfold Profile.get_profile_pic_url
  rw [huid]
  simp only [hhi, hcaught, if_true]
  unfold pic_fallback
  rw [hmeta]

theorem profile_pic_url_fallback_witness :
    Profile.get_profile_pic_url
      ⟨⟨.ok [("user", Val.obj [("username", Val.str "x"), ("id", Val.num 1),
          ("profile_pic_url_hd", Val.str "URL")])]⟩, .error .connectionError⟩
      ⟨Val.obj [("username", Val.str "x")]⟩ =
      (.ok (Val.str "URL"),
        ⟨Val.obj [("username", Val.str "x"), ("id", Val.num 1),
          ("profile_pic_url_hd", Val.str "URL")]⟩, 1 + 1 + 0, true) :=
  profile_pic_url_fallback _ _
    ⟨Val.obj [("username", Val.str "x"), ("id", Val.num 1),
      ("profile_pic_url_hd", Val.str "URL")]⟩
    ⟨Val.obj [("username", Val.str "x"), ("id", Val.num 1),
      ("profile_pic_url_hd", Val.str "URL")]⟩
    1 1 0 .connectionError (Val.str "URL") rfl rfl rfl rfl

/-- C9 (counterexample to the claim as stated): when the high-resolution
lookup fails AND the standard-resolution field `profile_pic_url_hd` is absent
even from the fetched user record, `get_profile_pic_url` DOES propagate an
error to the caller: the fallback's `_metadata` walk re-fetches, misses
again, and its `KeyError` escapes (the `except` clause is already past). -/
theorem profile_pic_url_propagates_counterexample :
    (Profile.get_profile_pic_url
      ⟨⟨.ok [("user", Val.obj [("username", Val.str "x"),
          ("id", Val.num 1)])]⟩, .error .connectionError⟩
      ⟨Val.obj [("username", Val.str "x")]⟩).1 = .error .keyError :=
  rfl
